import Mathlib

/-!
Verification of the vidly-api return workflow (`src/routes/returns.js`)
against its design specification.

The embedding models:
* the `Movie` document schema (`src/models/movie.js`),
* the `Rental` document with its customer/movie snapshots, `lookup` and
  `return` operations (the rental model file is not part of the sources
  given, so those two operations are modelled from the spec),
* the POST `/api/returns` handler (`src/routes/returns.js`), and
* the async middleware wrapper that funnels thrown exceptions to the
  error-handling boundary.

Identifiers (Mongo ObjectIds) are abstracted as `Nat`; timestamps are
`Int` milliseconds since the epoch; JavaScript numbers that the code
only ever treats as integers (`numberInStock`, `dailyRentalRate`,
`rentalFee`) are `Int`.
-/

/-- Snapshot of the customer embedded in a rental document
(spec §3: "reference to a Customer snapshot (id, name, phone)"). -/
structure CustomerSnapshot where
  id : Nat
  name : String
  phone : String
deriving DecidableEq

/-- Snapshot of the movie embedded in a rental document
(spec §3: "reference to a Movie snapshot (id, title, daily rental rate)"). -/
structure MovieSnapshot where
  id : Nat
  title : String
  dailyRentalRate : Int
deriving DecidableEq

/-- A rental document: customer/movie snapshots, `dateOut`,
optional `dateReturned` and `rentalFee` (spec §3). -/
structure Rental where
  id : Nat
  customer : CustomerSnapshot
  movie : MovieSnapshot
  dateOut : Int
  dateReturned : Option Int
  rentalFee : Option Int
deriving DecidableEq

/-- A movie document, after `src/models/movie.js`: title, genre name,
`numberInStock` (schema declares min 0, max 255) and `dailyRentalRate`. -/
structure Movie where
  id : Nat
  title : String
  genre : String
  numberInStock : Int
  dailyRentalRate : Int
deriving DecidableEq

/-- The entity store visible to the return workflow: the rental and
movie collections. -/
structure Store where
  rentals : List Rental
  movies : List Movie
deriving DecidableEq

/-- Milliseconds in a day, the unit for whole-day counts. -/
def msPerDay : Int := 86400000

/-- Whether a rental document matches a (customerId, movieId) query pair. -/
def Rental.matchesIds (r : Rental) (customerId movieId : Nat) : Bool :=
  r.customer.id == customerId && r.movie.id == movieId

/-- Modelled from the spec: `Rental.lookup` lives in the rental model file,
which is not among the given sources.  Spec §4.1: "finds the most relevant
open-or-closed rental matching both a customer identifier and a movie
identifier.  Policy: among matches, the workflow must select the rental
corresponding to the most recent checkout (`dateOut` descending)", returning
a "not found" sentinel when no match exists.  Among matches with equal
`dateOut` the earliest document wins. -/
def Rental.lookup : List Rental → Nat → Nat → Option Rental
  | [], _, _ => none
  | r :: rs, customerId, movieId =>
    match Rental.lookup rs customerId movieId with
    | none => if r.matchesIds customerId movieId then some r else none
    | some b =>
      if r.matchesIds customerId movieId then
        if r.dateOut < b.dateOut then some b else some r
      else some b

/-- Modelled from the spec: the day-count used by the fee computation in the
rental model file, which is not among the given sources.  Spec §4.1:
"`numberOfRentalDays = ceil_or_floor(dateReturned − dateOut, in whole days)`
... the reference behavior computes a raw day difference"; we take the
floor of the millisecond difference over a day. -/
def numberOfRentalDays (dateOut dateReturned : Int) : Int :=
  (dateReturned - dateOut).fdiv msPerDay

/-- Modelled from the spec: `rental.return()` lives in the rental model file,
which is not among the given sources.  Spec §4.1: "Sets `dateReturned` to the
current time. Computes `rentalFee = numberOfRentalDays * dailyRentalRate`."
The entity itself does not re-check `dateReturned`; the workflow is the sole
enforcement point. -/
def Rental.processReturn (r : Rental) (now : Int) : Rental :=
  { r with
    dateReturned := some now
    rentalFee := some (numberOfRentalDays r.dateOut now * r.movie.dailyRentalRate) }

/-- `rental.save()`: persist the mutated rental document, replacing the
stored document with the same id. -/
def saveRental (rs : List Rental) (r : Rental) : List Rental :=
  rs.map fun x => if x.id = r.id then r else x

/-- `Movie.update({ _id: movieId }, { $inc: { numberInStock: 1 } })`:
increment `numberInStock` of the first movie matching the id by 1.
Update operations bypass the schema validators, so no bound is applied. -/
def Movie.update : List Movie → Nat → List Movie
  | [], _ => []
  | m :: ms, movieId =>
    if m.id == movieId then
      { m with numberInStock := m.numberInStock + 1 } :: ms
    else
      m :: Movie.update ms movieId

/-- Read a movie's `numberInStock` out of the store (first match by id). -/
def getStock (ms : List Movie) (movieId : Nat) : Option Int :=
  (ms.find? fun m => m.id == movieId).map Movie.numberInStock

/-- The responses the handler in `src/routes/returns.js` can send. -/
inductive ReturnResponse
  | notFound
  | alreadyProcessed
  | success (rental : Rental)
deriving DecidableEq

/-- HTTP status of each response (`res.status(404)`, `res.status(400)`,
default 200 for `res.send(rental)`). -/
def ReturnResponse.status : ReturnResponse → Nat
  | .notFound => 404
  | .alreadyProcessed => 400
  | .success _ => 200

/-- Plain-text body of an error response; the success body is the
serialized rental, not text. -/
def ReturnResponse.bodyText : ReturnResponse → Option String
  | .notFound => some "Rental not found"
  | .alreadyProcessed => some "Return already processed"
  | .success _ => none

/-- A store-layer fault (a rejected persistence call, surfaced as a thrown
exception). -/
inductive Fault
  | storeFailure
deriving DecidableEq

/-- The awaited store writes the handler issues, in program order. -/
inductive StoreOp
  | saveRental (r : Rental)
  | incStock (movieId : Nat)
deriving DecidableEq

/-- Effect of one store write on the store state. -/
def applyOp (s : Store) : StoreOp → Store
  | .saveRental r => { s with rentals := saveRental s.rentals r }
  | .incStock movieId => { s with movies := Movie.update s.movies movieId }

instance {e a : Type} [DecidableEq e] [DecidableEq a] :
    DecidableEq (Except e a) := fun x y =>
  match x, y with
  | .ok v, .ok w =>
    if h : v = w then .isTrue (by rw [h]) else .isFalse (by simp [h])
  | .error v, .error w =>
    if h : v = w then .isTrue (by rw [h]) else .isFalse (by simp [h])
  | .ok _, .error _ => .isFalse (by simp)
  | .error _, .ok _ => .isFalse (by simp)

/-- Outcome of one run of the handler: the HTTP response sent, or the
exception that escaped (`Except.error`), together with the resulting store
state and the sequence of store writes issued. -/
structure RunResult where
  result : Except Fault ReturnResponse
  store : Store
  ops : List StoreOp
deriving DecidableEq

/-- The POST handler of `src/routes/returns.js`:
lookup → 404 if absent → 400 if `dateReturned` already set →
`rental.return()` → `rental.save()` → `Movie.update($inc numberInStock)` →
send the updated rental.  `saveFault` injects a store fault at the
`rental.save()` call: the save is issued but throws, nothing later runs and
the store is unchanged. -/
def processReturn (now : Int) (customerId movieId : Nat)
    (saveFault : Option Fault) (s : Store) : RunResult :=
  match Rental.lookup s.rentals customerId movieId with
  | none => ⟨.ok .notFound, s, []⟩
  | some rental =>
    if rental.dateReturned.isSome then
      ⟨.ok .alreadyProcessed, s, []⟩
    else
      let rental' := rental.processReturn now
      match saveFault with
      | some f => ⟨.error f, s, [.saveRental rental']⟩
      | none =>
        let s1 : Store := { s with rentals := saveRental s.rentals rental' }
        let s2 : Store := { s1 with movies := Movie.update s1.movies rental'.movie.id }
        ⟨.ok (.success rental'), s2, [.saveRental rental', .incStock rental'.movie.id]⟩

/-- How a handler outcome reaches the client: a sent response, or the
fault forwarded to the error middleware. -/
inductive HandlerOutcome
  | sent (resp : ReturnResponse)
  | nextCalled (f : Fault)
deriving DecidableEq

/-- The async middleware wrapper (`try { await handler } catch (ex) { next(ex) }`):
a thrown exception is forwarded to the error-handling boundary via `next`. -/
def asyncMiddleware (res : Except Fault ReturnResponse) : HandlerOutcome :=
  match res with
  | .ok r => .sent r
  | .error f => .nextCalled f

/-! Concrete store states used to instantiate the theorems below. -/

/-- A sample customer snapshot. -/
def sampleCustomer : CustomerSnapshot := ⟨1, "John Smith", "12345"⟩

/-- A second customer snapshot, distinct from `sampleCustomer`. -/
def otherCustomer : CustomerSnapshot := ⟨3, "Jane Doe", "67890"⟩

/-- A sample movie snapshot with `dailyRentalRate = 2`. -/
def sampleMovieSnap : MovieSnapshot := ⟨2, "Terminator", 2⟩

/-- An open rental of `sampleMovieSnap` by `sampleCustomer`, checked out at
epoch time 0. -/
def sampleRental : Rental := ⟨10, sampleCustomer, sampleMovieSnap, 0, none, none⟩

/-- The movie document referenced by `sampleRental`, 5 copies in stock. -/
def sampleMovie : Movie := ⟨2, "Terminator", "action", 5, 2⟩

/-- A store with one open rental and its movie. -/
def sampleStore : Store := ⟨[sampleRental], [sampleMovie]⟩

/-- An already-returned rental of the same movie by `otherCustomer`. -/
def returnedRental : Rental :=
  ⟨11, otherCustomer, sampleMovieSnap, 5, some 9, some 4⟩

/-- A store holding one open and one already-returned rental. -/
def pairStore : Store := ⟨[sampleRental, returnedRental], [sampleMovie]⟩

/-- A later re-rental of the same movie by the same customer
(`dateOut = 5`, still open). -/
def rerentedRental : Rental := ⟨12, sampleCustomer, sampleMovieSnap, 5, none, none⟩

/-- The movie document at the schema's declared stock maximum of 255. -/
def movie255 : Movie := ⟨2, "Terminator", "action", 255, 2⟩

/-- A store whose movie already has `numberInStock = 255`. -/
def store255 : Store := ⟨[sampleRental], [movie255]⟩

/-! Helper lemmas about `Rental.lookup`, `saveRental` and `Movie.update`. -/

theorem lookup_cons_none {rs : List Rental} {customerId movieId : Nat} (r : Rental)
    (h : Rental.lookup rs customerId movieId = none) :
    Rental.lookup (r :: rs) customerId movieId =
      if r.matchesIds customerId movieId then some r else none := by
  simp only [Rental.lookup, h]

theorem lookup_cons_some {rs : List Rental} {customerId movieId : Nat} {b : Rental} (r : Rental)
    (h : Rental.lookup rs customerId movieId = some b) :
    Rental.lookup (r :: rs) customerId movieId =
      if r.matchesIds customerId movieId then
        (if r.dateOut < b.dateOut then some b else some r)
      else some b := by
  simp only [Rental.lookup, h]

/-- A rental found by `lookup` is a member of the collection. -/
theorem lookup_mem : ∀ {rs : List Rental} {customerId movieId : Nat} {b : Rental},
    Rental.lookup rs customerId movieId = some b → b ∈ rs := by
  intro rs
  induction rs with
  | nil => intro customerId movieId b h; simp [Rental.lookup] at h
  | cons r rs ih =>
    intro customerId movieId b h
    cases hrec : Rental.lookup rs customerId movieId with
    | none =>
      rw [lookup_cons_none r hrec] at h
      by_cases hm : r.matchesIds customerId movieId = true
      · rw [if_pos hm] at h
        cases h
        exact List.mem_cons_self r rs
      · rw [if_neg hm] at h
        cases h
    | some c =>
      rw [lookup_cons_some r hrec] at h
      by_cases hm : r.matchesIds customerId movieId = true
      · rw [if_pos hm] at h
        by_cases hd : r.dateOut < c.dateOut
        · rw [if_pos hd] at h
          cases h
          exact List.mem_cons_of_mem r (ih hrec)
        · rw [if_neg hd] at h
          cases h
          exact List.mem_cons_self r rs
      · rw [if_neg hm] at h
        cases h
        exact List.mem_cons_of_mem r (ih hrec)

/-- A rental found by `lookup` matches the queried pair. -/
theorem lookup_matchesIds : ∀ {rs : List Rental} {customerId movieId : Nat} {b : Rental},
    Rental.lookup rs customerId movieId = some b →
    b.matchesIds customerId movieId = true := by
  intro rs
  induction rs with
  | nil => intro customerId movieId b h; simp [Rental.lookup] at h
  | cons r rs ih =>
    intro customerId movieId b h
    cases hrec : Rental.lookup rs customerId movieId with
    | none =>
      rw [lookup_cons_none r hrec] at h
      by_cases hm : r.matchesIds customerId movieId = true
      · rw [if_pos hm] at h; cases h; exact hm
      · rw [if_neg hm] at h; cases h
    | some c =>
      rw [lookup_cons_some r hrec] at h
      by_cases hm : r.matchesIds customerId movieId = true
      · rw [if_pos hm] at h
        by_cases hd : r.dateOut < c.dateOut
        · rw [if_pos hd] at h; cases h; exact ih hrec
        · rw [if_neg hd] at h; cases h; exact hm
      · rw [if_neg hm] at h; cases h; exact ih hrec

/-- If some rental in the collection matches, `lookup` finds one. -/
theorem lookup_isSome_of_mem : ∀ {rs : List Rental} {customerId movieId : Nat} {x : Rental},
    x ∈ rs → x.matchesIds customerId movieId = true →
    ∃ b, Rental.lookup rs customerId movieId = some b := by
  intro rs
  induction rs with
  | nil => intro customerId movieId x hx _; cases hx
  | cons r rs ih =>
    intro customerId movieId x hx hxm
    rcases List.mem_cons.mp hx with hx | hx
    · subst hx
      cases hrec : Rental.lookup rs customerId movieId with
      | none => exact ⟨x, by rw [lookup_cons_none x hrec, if_pos hxm]⟩
      | some c =>
        rw [lookup_cons_some x hrec, if_pos hxm]
        by_cases hd : x.dateOut < c.dateOut
        · exact ⟨c, by rw [if_pos hd]⟩
        · exact ⟨x, by rw [if_neg hd]⟩
    · obtain ⟨c, hc⟩ := ih hx hxm
      rw [lookup_cons_some r hc]
      by_cases hm : r.matchesIds customerId movieId = true
      · rw [if_pos hm]
        by_cases hd : r.dateOut < c.dateOut
        · exact ⟨c, by rw [if_pos hd]⟩
        · exact ⟨r, by rw [if_neg hd]⟩
      · exact ⟨c, by rw [if_neg hm]⟩

/-- The rental found by `lookup` has the latest `dateOut` among all
matching rentals. -/
theorem lookup_maximal : ∀ {rs : List Rental} {customerId movieId : Nat} {b : Rental},
    Rental.lookup rs customerId movieId = some b →
    ∀ y ∈ rs, y.matchesIds customerId movieId = true → y.dateOut ≤ b.dateOut := by
  intro rs
  induction rs with
  | nil => intro customerId movieId b _ y hy; cases hy
  | cons r rs ih =>
    intro customerId movieId b h y hy hym
    cases hrec : Rental.lookup rs customerId movieId with
    | none =>
      rw [lookup_cons_none r hrec] at h
      by_cases hm : r.matchesIds customerId movieId = true
      · rw [if_pos hm] at h
        cases h
        rcases List.mem_cons.mp hy with hy | hy
        · subst hy; exact le_refl y.dateOut
        · obtain ⟨c, hc⟩ := lookup_isSome_of_mem hy hym
          rw [hrec] at hc; cases hc
      · rw [if_neg hm] at h; cases h
    | some c =>
      rw [lookup_cons_some r hrec] at h
      by_cases hm : r.matchesIds customerId movieId = true
      · rw [if_pos hm] at h
        by_cases hd : r.dateOut < c.dateOut
        · rw [if_pos hd] at h
          cases h
          rcases List.mem_cons.mp hy with hy | hy
          · subst hy; exact le_of_lt hd
          · exact ih hrec y hy hym
        · rw [if_neg hd] at h
          cases h
          rcases List.mem_cons.mp hy with hy | hy
          · subst hy; exact le_refl y.dateOut
          · exact le_trans (ih hrec y hy hym) (le_of_not_lt hd)
      · rw [if_neg hm] at h
        cases h
        rcases List.mem_cons.mp hy with hy | hy
        · subst hy; rw [hym] at hm; exact absurd rfl hm
        · exact ih hrec y hy hym

/-- If no rental in the collection matches, `lookup` reports not-found. -/
theorem lookup_eq_none_of_no_match : ∀ {rs : List Rental} {customerId movieId : Nat},
    (∀ x ∈ rs, x.matchesIds customerId movieId = false) →
    Rental.lookup rs customerId movieId = none := by
  intro rs
  induction rs with
  | nil => intro customerId movieId _; rfl
  | cons r rs ih =>
    intro customerId movieId h
    have hrec := ih fun x hx => h x (List.mem_cons_of_mem r hx)
    rw [lookup_cons_none r hrec]
    rw [if_neg]
    rw [h r (List.mem_cons_self r rs)]
    exact Bool.false_ne_true

/-- Saving a rental whose id occurs nowhere in the collection leaves the
collection unchanged. -/
theorem saveRental_eq_self : ∀ (rs : List Rental) (w : Rental),
    (∀ x ∈ rs, x.id ≠ w.id) → saveRental rs w = rs := by
  intro rs
  induction rs with
  | nil => intro w _; rfl
  | cons a as ih =>
    intro w h
    have h1 : a.id ≠ w.id := h a (List.mem_cons_self a as)
    have h2 := ih w fun x hx => h x (List.mem_cons_of_mem a hx)
    simp only [saveRental, List.map_cons, if_neg h1]
    simp only [saveRental] at h2
    rw [h2]

theorem saveRental_cons (a : Rental) (as : List Rental) (w : Rental) :
    saveRental (a :: as) w =
      (if a.id = w.id then w else a) :: saveRental as w := rfl

/-- After saving a rental that keeps the id, the matched pair and the
`dateOut` of the rental that `lookup` previously found, `lookup` finds the
saved version (ids assumed unique in the collection). -/
theorem lookup_saveRental : ∀ (rs : List Rental) (customerId movieId : Nat) (r w : Rental),
    (rs.map Rental.id).Nodup →
    Rental.lookup rs customerId movieId = some r →
    w.id = r.id → w.matchesIds customerId movieId = true → w.dateOut = r.dateOut →
    Rental.lookup (saveRental rs w) customerId movieId = some w := by
  intro rs
  induction rs with
  | nil => intro customerId movieId r w _ h; simp [Rental.lookup] at h
  | cons a as ih =>
    intro customerId movieId r w hnodup h hid hwm hwd
    rw [List.map_cons, List.nodup_cons] at hnodup
    obtain ⟨hnotin, hnd⟩ := hnodup
    rw [saveRental_cons]
    cases hrec : Rental.lookup as customerId movieId with
    | none =>
      rw [lookup_cons_none a hrec] at h
      by_cases hm : a.matchesIds customerId movieId = true
      · rw [if_pos hm] at h
        cases h
        have htail : saveRental as w = as := by
          apply saveRental_eq_self
          intro x hx hxw
          apply hnotin
          rw [hid] at hxw
          rw [← hxw]
          exact List.mem_map_of_mem Rental.id hx
        rw [if_pos (by rw [hid]), htail, lookup_cons_none w hrec, if_pos hwm]
      · rw [if_neg hm] at h; cases h
    | some c =>
      rw [lookup_cons_some a hrec] at h
      by_cases hm : a.matchesIds customerId movieId = true
      · rw [if_pos hm] at h
        by_cases hd : a.dateOut < c.dateOut
        · rw [if_pos hd] at h
          cases h
          have haid : a.id ≠ w.id := by
            rw [hid]
            intro hcontra
            exact hnotin (hcontra ▸ List.mem_map_of_mem Rental.id (lookup_mem hrec))
          have htail := ih customerId movieId r w hnd hrec hid hwm hwd
          rw [if_neg haid, lookup_cons_some a htail, if_pos hm, if_pos (by rw [hwd]; exact hd)]
        · rw [if_neg hd] at h
          cases h
          have htail : saveRental as w = as := by
            apply saveRental_eq_self
            intro x hx hxw
            apply hnotin
            rw [hid] at hxw
            rw [← hxw]
            exact List.mem_map_of_mem Rental.id hx
          rw [if_pos (by rw [hid]), htail, lookup_cons_some w hrec, if_pos hwm,
            if_neg (by rw [hwd]; exact hd)]
      · rw [if_neg hm] at h
        cases h
        have haid : a.id ≠ w.id := by
          rw [hid]
          intro hcontra
          exact hnotin (hcontra ▸ List.mem_map_of_mem Rental.id (lookup_mem hrec))
        have htail := ih customerId movieId r w hnd hrec hid hwm hwd
        rw [if_neg haid, lookup_cons_some a htail, if_neg hm]

/-- `Movie.update` with an `$inc` spec raises the selected movie's stock by
exactly one. -/
theorem getStock_update_self : ∀ (ms : List Movie) (movieId : Nat),
    getStock (Movie.update ms movieId) movieId
      = (getStock ms movieId).map (· + 1) := by
  intro ms
  induction ms with
  | nil => intro movieId; rfl
  | cons m ms ih =>
    intro movieId
    cases hm : (m.id == movieId) with
    | true => simp [Movie.update, getStock, List.find?, hm]
    | false =>
      simp [Movie.update, getStock, List.find?, hm]
      simpa [getStock] using ih movieId

/-- The handler's not-found path: nothing is written. -/
theorem processReturn_notFound {s : Store} {customerId movieId : Nat}
    (now : Int) (saveFault : Option Fault)
    (hlk : Rental.lookup s.rentals customerId movieId = none) :
    processReturn now customerId movieId saveFault s = ⟨.ok .notFound, s, []⟩ := by
  simp only [processReturn, hlk]

/-- The handler's duplicate-return path: nothing is written. -/
theorem processReturn_already {s : Store} {customerId movieId : Nat} {r : Rental}
    (now : Int) (saveFault : Option Fault)
    (hlk : Rental.lookup s.rentals customerId movieId = some r)
    (hret : r.dateReturned.isSome = true) :
    processReturn now customerId movieId saveFault s = ⟨.ok .alreadyProcessed, s, []⟩ := by
  simp only [processReturn, hlk, hret, if_true]

/-- The handler's success path: the rental is returned and saved, then the
movie stock is incremented, then the updated rental is sent. -/
theorem processReturn_success {s : Store} {customerId movieId : Nat} {r : Rental}
    (now : Int)
    (hlk : Rental.lookup s.rentals customerId movieId = some r)
    (hopen : r.dateReturned = none) :
    processReturn now customerId movieId none s =
      ⟨.ok (.success (r.processReturn now)),
       ⟨saveRental s.rentals (r.processReturn now),
        Movie.update s.movies (r.processReturn now).movie.id⟩,
       [.saveRental (r.processReturn now),
        .incStock (r.processReturn now).movie.id]⟩ := by
  simp only [processReturn, hlk, hopen, Option.isSome_none, Bool.false_eq_true, if_false]

/-- The handler's path when `rental.save()` throws: the save was issued,
nothing afterwards ran, the store is unchanged and the exception escapes. -/
theorem processReturn_saveFault {s : Store} {customerId movieId : Nat} {r : Rental}
    (now : Int) (f : Fault)
    (hlk : Rental.lookup s.rentals customerId movieId = some r)
    (hopen : r.dateReturned = none) :
    processReturn now customerId movieId (some f) s =
      ⟨.error f, s, [.saveRental (r.processReturn now)]⟩ := by
  simp only [processReturn, hlk, hopen, Option.isSome_none, Bool.false_eq_true, if_false]

/-! The claims. -/

/-- C1: For every return request whose (customerId, movieId) pair resolves
to an existing rental with `dateReturned` absent, processing the return sets
`dateReturned` to a non-null timestamp that is ≥ `dateOut`, sets `rentalFee`
to a non-negative number, increments the referenced movie's `numberInStock`
by exactly 1, and responds with the updated rental.  (The timestamp bound
uses the real-time assumption that the return instant is not before the
checkout instant, and the fee sign uses the movie schema's declared
`dailyRentalRate ≥ 0`.) -/
theorem return_happy_path (now : Int) (customerId movieId : Nat) (s : Store) (r : Rental)
    (hlk : Rental.lookup s.rentals customerId movieId = some r)
    (hopen : r.dateReturned = none)
    (hnow : r.dateOut ≤ now)
    (hrate : 0 ≤ r.movie.dailyRentalRate) :
    (processReturn now customerId movieId none s).result
        = .ok (.success (r.processReturn now)) ∧
    (r.processReturn now).dateReturned = some now ∧
    r.dateOut ≤ now ∧
    (∃ fee, (r.processReturn now).rentalFee = some fee ∧ 0 ≤ fee) ∧
    getStock (processReturn now customerId movieId none s).store.movies r.movie.id
        = (getStock s.movies r.movie.id).map (· + 1) := by
  rw [processReturn_success now hlk hopen]
  refine ⟨rfl, rfl, hnow, ⟨numberOfRentalDays r.dateOut now * r.movie.dailyRentalRate,
    rfl, ?_⟩, ?_⟩
  · exact mul_nonneg
      (Int.fdiv_nonneg (sub_nonneg.mpr hnow) (by norm_num [msPerDay])) hrate
  · exact getStock_update_self s.movies r.movie.id

/-- C1 witness: the happy path at the sample store, returned 1 day after
checkout. -/
theorem return_happy_path_witness :
    (processReturn 86400000 1 2 none sampleStore).result
        = .ok (.success (sampleRental.processReturn 86400000)) ∧
    (sampleRental.processReturn 86400000).dateReturned = some 86400000 ∧
    sampleRental.dateOut ≤ 86400000 ∧
    (∃ fee, (sampleRental.processReturn 86400000).rentalFee = some fee ∧ 0 ≤ fee) ∧
    getStock (processReturn 86400000 1 2 none sampleStore).store.movies
        sampleRental.movie.id
      = (getStock sampleStore.movies sampleRental.movie.id).map (· + 1) :=
  return_happy_path 86400000 1 2 sampleStore sampleRental
    (by decide) (by decide) (by decide) (by decide)

/-- C2: On a successful return, `rentalFee` equals
`numberOfRentalDays * dailyRentalRate`, `numberOfRentalDays` being the
whole-day count between `dateOut` and `dateReturned`. -/
theorem return_fee_formula (now : Int) (customerId movieId : Nat) (s : Store) (r : Rental)
    (hlk : Rental.lookup s.rentals customerId movieId = some r)
    (hopen : r.dateReturned = none) :
    (processReturn now customerId movieId none s).result
        = .ok (.success (r.processReturn now)) ∧
    (r.processReturn now).rentalFee
        = some (numberOfRentalDays r.dateOut now * r.movie.dailyRentalRate) := by
  rw [processReturn_success now hlk hopen]
  exact ⟨rfl, rfl⟩

/-- C2 witness: a rental with `dailyRentalRate = 2` returned 7 days after
checkout carries `rentalFee = 14`. -/
theorem return_fee_formula_witness :
    (processReturn (7 * 86400000) 1 2 none sampleStore).result
        = .ok (.success (sampleRental.processReturn (7 * 86400000))) ∧
    (sampleRental.processReturn (7 * 86400000)).rentalFee = some 14 := by
  have h := return_fee_formula (7 * 86400000) 1 2 sampleStore sampleRental
    (by decide) (by decide)
  exact ⟨h.1, by decide⟩

/-- C4: For every (customerId, movieId) pair with no matching rental, the
return workflow responds 404 with body "Rental not found" and performs no
state mutation anywhere: the store is unchanged and no store write is
issued. -/
theorem return_not_found (now : Int) (customerId movieId : Nat)
    (saveFault : Option Fault) (s : Store)
    (hnone : ∀ x ∈ s.rentals, x.matchesIds customerId movieId = false) :
    (processReturn now customerId movieId saveFault s).result = .ok .notFound ∧
    ReturnResponse.notFound.status = 404 ∧
    ReturnResponse.notFound.bodyText = some "Rental not found" ∧
    (processReturn now customerId movieId saveFault s).store = s ∧
    (processReturn now customerId movieId saveFault s).ops = [] := by
  rw [processReturn_notFound now saveFault (lookup_eq_none_of_no_match hnone)]
  exact ⟨rfl, rfl, rfl, rfl, rfl⟩

/-- C4 witness: movie id 99 has no rental in the sample store. -/
theorem return_not_found_witness :
    (processReturn 86400000 1 99 none sampleStore).result = .ok .notFound ∧
    ReturnResponse.notFound.status = 404 ∧
    ReturnResponse.notFound.bodyText = some "Rental not found" ∧
    (processReturn 86400000 1 99 none sampleStore).store = sampleStore ∧
    (processReturn 86400000 1 99 none sampleStore).ops = [] :=
  return_not_found 86400000 1 99 none sampleStore (by decide)

/-- C5: Whenever at least one rental matches the (customerId, movieId)
pair, `Rental.lookup` succeeds and returns a matching rental whose
`dateOut` is maximal among all matching rentals, so a return is applied
against the most recent checkout. -/
theorem lookup_most_recent_checkout (rs : List Rental) (customerId movieId : Nat)
    (x : Rental) (hx : x ∈ rs) (hxm : x.matchesIds customerId movieId = true) :
    ∃ b, Rental.lookup rs customerId movieId = some b ∧
      b.matchesIds customerId movieId = true ∧
      ∀ y ∈ rs, y.matchesIds customerId movieId = true → y.dateOut ≤ b.dateOut := by
  obtain ⟨b, hb⟩ := lookup_isSome_of_mem hx hxm
  exact ⟨b, hb, lookup_matchesIds hb, lookup_maximal hb⟩

/-- C5 witness: with two open rentals for the same pair (checkouts at 0 and
at 5), lookup selects one with the maximal `dateOut`. -/
theorem lookup_most_recent_checkout_witness :
    ∃ b, Rental.lookup [sampleRental, rerentedRental] 1 2 = some b ∧
      b.matchesIds 1 2 = true ∧
      ∀ y ∈ [sampleRental, rerentedRental],
        y.matchesIds 1 2 = true → y.dateOut ≤ b.dateOut :=
  lookup_most_recent_checkout [sampleRental, rerentedRental] 1 2
    sampleRental (by decide) (by decide)

/-- C8: For a rental returned at the same instant it was checked out
(`now = dateOut`), the fee computation is total and yields a defined,
non-negative value (zero). -/
theorem same_instant_return_defined (customerId movieId : Nat) (s : Store) (r : Rental)
    (hlk : Rental.lookup s.rentals customerId movieId = some r)
    (hopen : r.dateReturned = none) :
    (processReturn r.dateOut customerId movieId none s).result
        = .ok (.success (r.processReturn r.dateOut)) ∧
    ∃ fee, (r.processReturn r.dateOut).rentalFee = some fee ∧ 0 ≤ fee := by
  rw [processReturn_success r.dateOut hlk hopen]
  refine ⟨rfl, 0, ?_, le_refl 0⟩
  show some (numberOfRentalDays r.dateOut r.dateOut * r.movie.dailyRentalRate) = some 0
  simp [numberOfRentalDays]

/-- C8 witness: the sample rental returned at its own checkout instant. -/
theorem same_instant_return_defined_witness :
    (processReturn sampleRental.dateOut 1 2 none sampleStore).result
        = .ok (.success (sampleRental.processReturn sampleRental.dateOut)) ∧
    ∃ fee, (sampleRental.processReturn sampleRental.dateOut).rentalFee
        = some fee ∧ 0 ≤ fee :=
  same_instant_return_defined 1 2 sampleStore sampleRental (by decide) (by decide)

/-- C3: Submitting two return requests in sequence for the same rental
succeeds exactly once: the second request is rejected with a 400 response
whose body is "Return already processed", leaves the store untouched, and
the movie's `numberInStock` is incremented exactly once across the two
requests.  (Store ids are assumed unique, as the database guarantees.) -/
theorem double_return_rejected (now now2 : Int) (customerId movieId : Nat)
    (s : Store) (r : Rental)
    (hnodup : (s.rentals.map Rental.id).Nodup)
    (hlk : Rental.lookup s.rentals customerId movieId = some r)
    (hopen : r.dateReturned = none) :
    (processReturn now customerId movieId none s).result
        = .ok (.success (r.processReturn now)) ∧
    (processReturn now2 customerId movieId none
        (processReturn now customerId movieId none s).store).result
        = .ok .alreadyProcessed ∧
    ReturnResponse.alreadyProcessed.status = 400 ∧
    ReturnResponse.alreadyProcessed.bodyText = some "Return already processed" ∧
    (processReturn now2 customerId movieId none
        (processReturn now customerId movieId none s).store).store
        = (processReturn now customerId movieId none s).store ∧
    getStock (processReturn now2 customerId movieId none
        (processReturn now customerId movieId none s).store).store.movies r.movie.id
        = (getStock s.movies r.movie.id).map (· + 1) := by
  have hw0 := lookup_matchesIds hlk
  have hw : (r.processReturn now).matchesIds customerId movieId = true := hw0
  have hlk2 := lookup_saveRental s.rentals customerId movieId r (r.processReturn now)
    hnodup hlk rfl hw rfl
  have h1 := processReturn_success now hlk hopen
  have h2 : processReturn now2 customerId movieId none
      (processReturn now customerId movieId none s).store
      = ⟨.ok .alreadyProcessed,
         (processReturn now customerId movieId none s).store, []⟩ := by
    apply processReturn_already
    · rw [h1]; exact hlk2
    · rfl
  refine ⟨by rw [h1], by rw [h2], rfl, rfl, by rw [h2], ?_⟩
  rw [h2, h1]
  exact getStock_update_self s.movies r.movie.id

/-- C3 witness: the sample rental, returned on day 1 and again on day 2. -/
theorem double_return_rejected_witness :
    (processReturn 86400000 1 2 none sampleStore).result
        = .ok (.success (sampleRental.processReturn 86400000)) ∧
    (processReturn 172800000 1 2 none
        (processReturn 86400000 1 2 none sampleStore).store).result
        = .ok .alreadyProcessed ∧
    ReturnResponse.alreadyProcessed.status = 400 ∧
    ReturnResponse.alreadyProcessed.bodyText = some "Return already processed" ∧
    (processReturn 172800000 1 2 none
        (processReturn 86400000 1 2 none sampleStore).store).store
        = (processReturn 86400000 1 2 none sampleStore).store ∧
    getStock (processReturn 172800000 1 2 none
        (processReturn 86400000 1 2 none sampleStore).store).store.movies
        sampleRental.movie.id
        = (getStock sampleStore.movies sampleRental.movie.id).map (· + 1) :=
  double_return_rejected 86400000 172800000 1 2 sampleStore sampleRental
    (by decide) (by decide) (by decide)

/-- In any writes list headed by a rental save, an inventory increment can
only occur after some save. -/
theorem save_head_of_append {w : Rental} {rest l1 l2 : List StoreOp} {m : Nat}
    (h : StoreOp.saveRental w :: rest = l1 ++ StoreOp.incStock m :: l2) :
    ∃ v, StoreOp.saveRental v ∈ l1 := by
  cases l1 with
  | nil => simp at h
  | cons a t =>
    rw [List.cons_append] at h
    obtain ⟨ha, -⟩ := List.cons.inj h
    refine ⟨w, ?_⟩
    rw [← ha]
    exact List.mem_cons_self _ _

/-- C6: In every execution of the return workflow, every inventory
increment in the issued write sequence is preceded by the rental save;
and (fault-free) the resulting store state is exactly the writes applied
in that order. -/
theorem save_precedes_increment (now : Int) (customerId movieId : Nat)
    (saveFault : Option Fault) (s : Store) :
    (∀ l1 m l2, (processReturn now customerId movieId saveFault s).ops
        = l1 ++ StoreOp.incStock m :: l2 →
      ∃ v, StoreOp.saveRental v ∈ l1) ∧
    (processReturn now customerId movieId none s).store
      = ((processReturn now customerId movieId none s).ops).foldl applyOp s := by
  constructor
  · intro l1 m l2 h
    cases hlk : Rental.lookup s.rentals customerId movieId with
    | none =>
      rw [processReturn_notFound now saveFault hlk] at h
      simp at h
    | some r =>
      by_cases hret : r.dateReturned.isSome = true
      · rw [processReturn_already now saveFault hlk hret] at h
        simp at h
      · have hopen : r.dateReturned = none := Option.not_isSome_iff_eq_none.mp hret
        cases saveFault with
        | some f =>
          rw [processReturn_saveFault now f hlk hopen] at h
          exact save_head_of_append h
        | none =>
          rw [processReturn_success now hlk hopen] at h
          exact save_head_of_append h
  · cases hlk : Rental.lookup s.rentals customerId movieId with
    | none =>
      rw [processReturn_notFound now none hlk]
      rfl
    | some r =>
      by_cases hret : r.dateReturned.isSome = true
      · rw [processReturn_already now none hlk hret]
        rfl
      · have hopen : r.dateReturned = none := Option.not_isSome_iff_eq_none.mp hret
        rw [processReturn_success now hlk hopen]
        rfl

/-- C6 witness: in the sample run the increment is preceded by the save,
and folding the issued writes reproduces the final store. -/
theorem save_precedes_increment_witness :
    (∃ v, StoreOp.saveRental v
        ∈ [StoreOp.saveRental (sampleRental.processReturn 86400000)]) ∧
    (processReturn 86400000 1 2 none sampleStore).store
      = ((processReturn 86400000 1 2 none sampleStore).ops).foldl
          applyOp sampleStore := by
  have h := save_precedes_increment 86400000 1 2 none sampleStore
  exact ⟨h.1 [StoreOp.saveRental (sampleRental.processReturn 86400000)] 2 []
    (by decide), h.2⟩

/-- C7: `dateReturned` and `rentalFee` are set only together (absent
together until a return is processed), and a rental already marked
returned is never modified again by any run of the return workflow: the
exact record, its `dateReturned` and its `rentalFee` included, survives
every subsequent request unchanged.  (Store ids assumed unique.) -/
theorem returned_fields_immutable (now : Int) (customerId movieId : Nat)
    (saveFault : Option Fault) (s : Store) (r : Rental)
    (hnodup : (s.rentals.map Rental.id).Nodup)
    (hmem : r ∈ s.rentals)
    (hret : r.dateReturned.isSome = true) :
    r ∈ (processReturn now customerId movieId saveFault s).store.rentals ∧
    ((∀ x ∈ s.rentals, (x.dateReturned = none ↔ x.rentalFee = none)) →
      ∀ x ∈ (processReturn now customerId movieId saveFault s).store.rentals,
        (x.dateReturned = none ↔ x.rentalFee = none)) := by
  cases hlk : Rental.lookup s.rentals customerId movieId with
  | none =>
    rw [processReturn_notFound now saveFault hlk]
    exact ⟨hmem, fun hinv => hinv⟩
  | some rL =>
    by_cases hLret : rL.dateReturned.isSome = true
    · rw [processReturn_already now saveFault hlk hLret]
      exact ⟨hmem, fun hinv => hinv⟩
    · have hopen : rL.dateReturned = none := Option.not_isSome_iff_eq_none.mp hLret
      cases saveFault with
      | some f =>
        rw [processReturn_saveFault now f hlk hopen]
        exact ⟨hmem, fun hinv => hinv⟩
      | none =>
        rw [processReturn_success now hlk hopen]
        constructor
        · show r ∈ saveRental s.rentals (rL.processReturn now)
          have hne : r.id ≠ (rL.processReturn now).id := by
            intro hcontra
            have hrL : rL ∈ s.rentals := lookup_mem hlk
            have hreq : r = rL :=
              List.inj_on_of_nodup_map hnodup hmem hrL hcontra
            rw [hreq, hopen] at hret
            simp at hret
          show r ∈ List.map
            (fun x => if x.id = (rL.processReturn now).id
              then (rL.processReturn now) else x) s.rentals
          exact List.mem_map.mpr ⟨r, hmem, if_neg hne⟩
        · intro hinv x hx
          have hx2 : x ∈ List.map
              (fun y => if y.id = (rL.processReturn now).id
                then (rL.processReturn now) else y) s.rentals := hx
          obtain ⟨y, hy, hxy⟩ := List.mem_map.mp hx2
          by_cases hyid : y.id = (rL.processReturn now).id
          · rw [← hxy, if_pos hyid]
            simp [Rental.processReturn]
          · rw [← hxy, if_neg hyid]
            exact hinv y hy

/-- C7 witness: the already-returned rental in the pair store survives a
return of the other rental verbatim, and the absent-together invariant is
preserved. -/
theorem returned_fields_immutable_witness :
    returnedRental ∈ (processReturn 86400000 1 2 none pairStore).store.rentals ∧
    ((∀ x ∈ pairStore.rentals, (x.dateReturned = none ↔ x.rentalFee = none)) →
      ∀ x ∈ (processReturn 86400000 1 2 none pairStore).store.rentals,
        (x.dateReturned = none ↔ x.rentalFee = none)) :=
  returned_fields_immutable 86400000 1 2 none pairStore returnedRental
    (by decide) (by decide) (by decide)

/-- C9 counterexample: with the movie already at the schema's declared
maximum stock of 255, a successful return drives `numberInStock` to 256,
so the 255 upper bound is not preserved by the workflow's increment
(`Movie.update` with `$inc` bypasses the schema validators). -/
theorem stock_bound_counterexample :
    getStock store255.movies 2 = some 255 ∧
    getStock (processReturn 0 1 2 none store255).store.movies 2 = some 256 ∧
    ¬((256 : Int) ≤ 255) := by decide

/-- C9 (amended): `numberInStock` stays a non-negative integer under the
return workflow, whose compensating action increments it by exactly 1; the
schema's declared maximum of 255 is not enforced by the increment. -/
theorem stock_increment_amended (now : Int) (customerId movieId : Nat) (s : Store)
    (r : Rental) (n : Int)
    (hlk : Rental.lookup s.rentals customerId movieId = some r)
    (hopen : r.dateReturned = none)
    (hstock : getStock s.movies r.movie.id = some n)
    (hn : 0 ≤ n) :
    getStock (processReturn now customerId movieId none s).store.movies r.movie.id
        = some (n + 1) ∧ 0 ≤ n + 1 := by
  rw [processReturn_success now hlk hopen]
  constructor
  · show getStock (Movie.update s.movies r.movie.id) r.movie.id = some (n + 1)
    rw [getStock_update_self s.movies r.movie.id, hstock]
    rfl
  · omega

/-- C9 (amended) witness: the sample store's stock of 5 becomes 6. -/
theorem stock_increment_amended_witness :
    getStock (processReturn 86400000 1 2 none sampleStore).store.movies
        sampleRental.movie.id = some (5 + 1) ∧ (0 : Int) ≤ 5 + 1 :=
  stock_increment_amended 86400000 1 2 sampleStore sampleRental 5
    (by decide) (by decide) (by decide) (by decide)

/-- C10: If the rental save throws, the workflow attempts no inventory
increment and sends no response: the store is unchanged, the only write
issued was the failed save, and the exception propagates through the async
middleware wrapper to the error-handling boundary. -/
theorem save_failure_no_increment (now : Int) (customerId movieId : Nat)
    (s : Store) (r : Rental) (f : Fault)
    (hlk : Rental.lookup s.rentals customerId movieId = some r)
    (hopen : r.dateReturned = none) :
    (processReturn now customerId movieId (some f) s).result = .error f ∧
    (processReturn now customerId movieId (some f) s).store = s ∧
    (∀ m, StoreOp.incStock m ∉ (processReturn now customerId movieId (some f) s).ops) ∧
    asyncMiddleware (processReturn now customerId movieId (some f) s).result
        = .nextCalled f ∧
    (∀ resp, (processReturn now customerId movieId (some f) s).result ≠ .ok resp) := by
  rw [processReturn_saveFault now f hlk hopen]
  refine ⟨rfl, rfl, ?_, rfl, ?_⟩
  · intro m hm
    simp at hm
  · intro resp h
    cases h

/-- C10 witness: a save fault on the sample store's return. -/
theorem save_failure_no_increment_witness :
    (processReturn 86400000 1 2 (some .storeFailure) sampleStore).result
        = .error .storeFailure ∧
    (processReturn 86400000 1 2 (some .storeFailure) sampleStore).store
        = sampleStore ∧
    (∀ m, StoreOp.incStock m
        ∉ (processReturn 86400000 1 2 (some .storeFailure) sampleStore).ops) ∧
    asyncMiddleware (processReturn 86400000 1 2 (some .storeFailure) sampleStore).result
        = .nextCalled .storeFailure ∧
    (∀ resp, (processReturn 86400000 1 2 (some .storeFailure) sampleStore).result
        ≠ .ok resp) :=
  save_failure_no_increment 86400000 1 2 sampleStore sampleRental .storeFailure
    (by decide) (by decide)
